import Mathlib

/-!
Verification of the orchestration layer of the kemis-studio email-campaign
generator (src/template_generator.py): content generation with model
fallback, the image recompression pipeline, schedule-time rounding and
formatting, the oversize-HTML mitigation policy, and the Sendy dispatch
workflow.  Each definition is a shallow embedding of the corresponding
Python code; external HTTP calls are modelled by oracle outcomes supplied
as parameters.
-/

/-- Values of the parsed JSON content record: the fields the code reads are
either strings or lists of strings (bullet_points). -/
inductive JVal where
  | s (x : String)
  | l (xs : List String)
deriving DecidableEq

/-- Embedding of `TemplateGenerator.get_fallback_content` (lines 271-285):
the static, network-free content record built from the prompt. -/
def get_fallback_content (prompt : String) : List (String × JVal) :=
  [("subject_line", JVal.s ("Special Offer: " ++ prompt)),
   ("hero_title", JVal.s "SPECIAL OFFER"),
   ("greeting", JVal.s "Hi [Name,fallback=there]! 🎉"),
   ("headline", JVal.s "Exclusive Deal Just For You"),
   ("subheadline", JVal.s "Limited Time Opportunity"),
   ("bullet_points", JVal.l ["Great value", "Quality service", "Special pricing"]),
   ("main_content", JVal.s ("Check out this amazing deal! " ++ prompt)),
   ("cta_text", JVal.s "LEARN MORE"),
   ("cta_url", JVal.s "https://www.kemis.net"),
   ("urgency_text", JVal.s "Limited time offer!"),
   ("offer_details", JVal.s "Act now to secure your discount before this offer expires!")]

/-- The required fields of a campaign content record, per the renderer and
the dispatch code that indexes them. -/
def requiredFields : List String :=
  ["subject_line", "hero_title", "greeting", "bullet_points",
   "main_content", "cta_text", "cta_url"]

/-- A field is present and populated when it is bound to a non-empty
string or a non-empty list. -/
def populatedField (obj : List (String × JVal)) (key : String) : Bool :=
  match obj.lookup key with
  | some (JVal.s x) => x != ""
  | some (JVal.l xs) => !xs.isEmpty
  | none => false

/-- Outcome of one chat-completion call followed by `json.loads` on its
body, as classified by the exception handlers of
`generate_email_content`: a successful parse, a `json.JSONDecodeError`
(a `ValueError`, caught by the generic handler), `openai.RateLimitError`,
`openai.QuotaExceededError`, `openai.APIError`, or any other exception. -/
inductive GenOutcome where
  | parsed (c : List (String × JVal))
  | parseFailure
  | rateLimit
  | quotaExceeded
  | apiFailure
  | otherFailure
deriving DecidableEq

/-- Embedding of `TemplateGenerator.generate_email_content` (lines 68-131).
`primary` is the outcome of the gpt-4 call, `secondary` the outcome of
the gpt-3.5-turbo call with the identical prompt (consulted only when the
code reaches that call).  Returns the produced record together with a flag
recording whether the secondary model was invoked.  The handler order is
that of the source: RateLimitError and QuotaExceededError return the
fallback directly; only APIError triggers the gpt-3.5-turbo retry (whose
bare except returns the fallback); a parse failure or any other exception
falls to the final generic handler and returns the fallback. -/
def generate_email_content (primary secondary : GenOutcome) (prompt : String) :
    List (String × JVal) × Bool :=
  match primary with
  | GenOutcome.parsed c => (c, false)
  | GenOutcome.rateLimit => (get_fallback_content prompt, false)
  | GenOutcome.quotaExceeded => (get_fallback_content prompt, false)
  | GenOutcome.apiFailure =>
    match secondary with
    | GenOutcome.parsed c => (c, true)
    | _ => (get_fallback_content prompt, true)
  | GenOutcome.parseFailure => (get_fallback_content prompt, false)
  | GenOutcome.otherFailure => (get_fallback_content prompt, false)

/-- Embedding of the size-driven part of
`TemplateGenerator.download_and_process_image` (lines 218-262).
`statusCode` is the HTTP status of the image download, `originalSize` the
byte length of the downloaded body, and `encode q` the byte length of the
JPEG encoding of the (resized, RGB) image at quality `q`.  Returns the
ordered list of qualities actually attempted and the byte size of the
returned JPEG (`none` models returning the placeholder `None`). -/
def download_and_process_image (statusCode : Nat) (originalSize : Nat)
    (encode : Nat → Nat) : List Nat × Option Nat :=
  if statusCode = 200 then
    let quality := if originalSize > 1024 * 1024 then 60 else 70
    let firstSize := encode quality
    if firstSize > 300 * 1024 then
      let ultraSize := encode 30
      if ultraSize > 300 * 1024 then
        let extremeSize := encode 20
        if extremeSize > 300 * 1024 then ([quality, 30, 20], none)
        else ([quality, 30, 20], some extremeSize)
      else ([quality, 30], some ultraSize)
    else ([quality], some firstSize)
  else ([], none)

/-- Floor of the base-2 logarithm by structural recursion on a fuel
argument, so that it reduces inside the kernel; `log2fuel n n` is exact
for every `n`. -/
def log2fuel : Nat → Nat → Nat
  | 0, _ => 0
  | fuel + 1, n => if 2 ≤ n then log2fuel fuel (n / 2) + 1 else 0

/-- Kernel-reducible `Nat.log2`. -/
def natLog2 (n : Nat) : Nat := log2fuel n n

/-- Round `a / b` (with `b > 0`) to the nearest integer, ties to even —
the rounding mode of IEEE-754 binary64 arithmetic. -/
def rneDiv (a b : Nat) : Nat :=
  let q := a / b
  let r := a % b
  if 2 * r < b then q
  else if b < 2 * r then q + 1
  else if q % 2 = 0 then q else q + 1

/-- Candidate-exponent step of binary64 rounding of `p / q`: when
`p / q / 2 ^ e` lies in `[2 ^ 52, 2 ^ 53)`, round it to the 53-bit
significand, renormalizing when rounding reaches `2 ^ 53`. -/
def flCand (p q : Nat) (e : Int) : Option (Nat × Int) :=
  let a := if 0 ≤ e then p else p * 2 ^ (-e).toNat
  let b := if 0 ≤ e then q * 2 ^ e.toNat else q
  if 2 ^ 52 * b ≤ a ∧ a < 2 ^ 53 * b then
    let s := rneDiv a b
    if s = 2 ^ 53 then some (2 ^ 52, e + 1) else some (s, e)
  else none

/-- Round the rational `p / q` (`q > 0`) to an IEEE-754 binary64 value
represented as `significand × 2 ^ exponent` with
`2 ^ 52 ≤ significand < 2 ^ 53` (round to nearest, ties to even), or
`(0, 0)` for `p = 0`.  The magnitudes arising from image dimensions are
far from the subnormal and overflow ranges, so normal values suffice.
The correct exponent is among the three candidates around
`log2 p - log2 q - 52`, and exactly one candidate passes `flCand`. -/
def flRat (p q : Nat) : Nat × Int :=
  if p = 0 then (0, 0)
  else
    let e0 : Int := (natLog2 p : Int) - (natLog2 q : Int) - 52
    match flCand p q (e0 - 1) with
    | some r => r
    | none =>
      match flCand p q e0 with
      | some r => r
      | none =>
        match flCand p q (e0 + 1) with
        | some r => r
        | none => (0, 0)

/-- Embedding of `int(image.height * (560 / image.width))` of line 211
under Python's binary floating point: `560 / width` is rounded to a
double, the exact integer `height` times that double is rounded to a
double, and the result is truncated toward zero (our values are
non-negative, so truncation is the floor).  `width = 0` would raise
`ZeroDivisionError` in Python and is mapped to 0; image widths are
positive. -/
def floatTruncHeight (width height : Nat) : Nat :=
  if width = 0 then 0
  else
    let d := flRat 560 width
    let m := flRat (height * d.1) 1
    let e : Int := m.2 + d.2
    if 0 ≤ e then m.1 * 2 ^ e.toNat else m.1 / 2 ^ (-e).toNat

/-- Embedding of the resize step of `download_and_process_image`
(lines 206-212): width 560 whenever the input width differs from 560,
with the new height computed as `int(image.height * ratio)` in binary
floating point; no resize when the width is already 560. -/
def resize_dims (width height : Nat) : Nat × Nat :=
  if width ≠ 560 then (560, floatTruncHeight width height) else (width, height)

/-- Input dimensions at which the float evaluation of
`int(height * (560 / width))` lands one below the exact
`height * 560 / width` even though the exact ratio is an integer: every
such pair with both dimensions at most 128. -/
def divergence_cases : List (Nat × Nat) :=
  [(17, 51), (17, 85), (17, 102), (17, 119), (25, 45), (25, 85), (25, 90),
   (34, 51), (34, 85), (34, 102), (34, 119), (50, 45), (50, 85), (50, 90),
   (68, 51), (68, 85), (68, 102), (68, 119), (100, 45), (100, 85), (100, 90)]

/-- Modelled from the spec: rounding a ratio `num / den` to the nearest
integer, as asserted by the claim ("height equal to round(H × 560 / W)").
The source itself truncates; this definition exists only to compare the
two. -/
def round_nearest (num den : Nat) : Nat := (2 * num + den) / (2 * den)

/-- Embedding of `round(minutes / 5) * 5` (line 409) for an integer number
of minutes.  Since `minutes / 5` can never land exactly on `x.5`, Python's
banker's rounding coincides with round-half-up, which this computes. -/
def round5 (minute : Nat) : Nat := (2 * minute + 5) / 10 * 5

/-- Embedding of the schedule-rounding block of `send_to_sendy`
(lines 407-414).  When the rounded minute reaches 60 the code calls
`schedule_dt.replace(hour=schedule_dt.hour + 1, minute=0)`;
`datetime.replace` raises `ValueError` when the new hour exceeds 23, which
is modelled as `none`. -/
def schedule_round (hour minute : Nat) : Option (Nat × Nat) :=
  let r := round5 minute
  if r = 60 then
    if hour + 1 ≤ 23 then some (hour + 1, 0) else none
  else some (hour, r)

/-- Lower-case full month names, the result of `%B` under `.lower()`. -/
def month_name_lower (m : Nat) : String :=
  (["january", "february", "march", "april", "may", "june", "july",
    "august", "september", "october", "november", "december"]).getD (m - 1) ""

/-- Two-digit zero padding, as produced by strftime `%d`, `%I` and `%M`. -/
def pad2 (n : Nat) : String := if n < 10 then "0" ++ Nat.repr n else Nat.repr n

/-- Twelve-hour clock value, as produced by strftime `%I`. -/
def hour12 (h : Nat) : Nat := if h % 12 = 0 then 12 else h % 12

/-- Lower-cased meridiem, the result of `%p` under `.lower()`. -/
def meridiem_lower (h : Nat) : String := if h < 12 then "am" else "pm"

/-- Embedding of `schedule_dt.strftime("%B %d, %Y %I:%M%p").lower()`
(line 418). -/
def strftime_schedule_lower (month day year hour minute : Nat) : String :=
  month_name_lower month ++ " " ++ pad2 day ++ ", " ++ Nat.repr year ++ " " ++
    pad2 (hour12 hour) ++ ":" ++ pad2 minute ++ meridiem_lower hour

/-- Python `\w` on the ASCII strings at hand. -/
def isWordChar (c : Char) : Bool := c.isAlphanum || c = '_'

/-- Python `\s` on the ASCII strings at hand. -/
def isSpaceChar (c : Char) : Bool :=
  c = ' ' || c = '\t' || c = '\n' || c = '\r' || c = '\x0b' || c = '\x0c'

/-- One rewriting step engine shared by the `re.sub` embeddings: at each
position try the matcher; on a match of `n > 0` consumed characters emit
the replacement and resume after the match, otherwise keep the character
and advance by one.  This is `re.sub`'s leftmost, non-overlapping scan.
The fuel starts at the length of the list, which suffices because every
step consumes at least one character. -/
def rewriteAux (m : List Char → Option (List Char × Nat)) :
    Nat → List Char → List Char
  | _, [] => []
  | 0, cs => cs
  | fuel + 1, c :: cs =>
    match m (c :: cs) with
    | some (rep, n) =>
      if 0 < n then rep ++ rewriteAux m fuel (List.drop n (c :: cs))
      else c :: rewriteAux m fuel cs
    | none => c :: rewriteAux m fuel cs

/-- Apply a matcher over a whole string, as `re.sub` does. -/
def rewriteAll (m : List Char → Option (List Char × Nat)) (s : String) : String :=
  String.mk (rewriteAux m s.data.length s.data)

/-- Matcher for `(\w+)\s+0(\d),` with replacement `\1 \2,` (line 420):
a maximal word run, a maximal whitespace run, a literal `0`, a digit, and
a comma.  Returns the replacement and the number of characters matched. -/
def day_zero_match (cs : List Char) : Option (List Char × Nat) :=
  let w := cs.takeWhile isWordChar
  if w.length = 0 then none
  else
    let r1 := cs.drop w.length
    let sp := r1.takeWhile isSpaceChar
    if sp.length = 0 then none
    else
      match r1.drop sp.length with
      | '0' :: d :: ',' :: _ =>
        if d.isDigit then some (w ++ [' ', d, ','], w.length + sp.length + 3)
        else none
      | _ => none

/-- Matcher for `(\s)0(\d:\d{2}[ap]m)` with replacement `\1\2` (line 422):
a whitespace character, a literal `0`, a digit, a colon, two digits, and
`am` or `pm`. -/
def hour_zero_match (cs : List Char) : Option (List Char × Nat) :=
  match cs with
  | s :: '0' :: d :: ':' :: m1 :: m2 :: ap :: 'm' :: _ =>
    if isSpaceChar s && d.isDigit && m1.isDigit && m2.isDigit &&
        (ap = 'a' || ap = 'p')
    then some ([s, d, ':', m1, m2, ap, 'm'], 8)
    else none
  | _ => none

/-- Embedding of the day-of-month de-zero-padding `re.sub` (line 420). -/
def sub_day_zero (s : String) : String := rewriteAll day_zero_match s

/-- Embedding of the hour de-zero-padding `re.sub` (line 422). -/
def sub_hour_zero (s : String) : String := rewriteAll hour_zero_match s

/-- Embedding of the full schedule-time formatting of `send_to_sendy`
(lines 416-422): strftime, lower-case, then the two substitutions in
source order. -/
def schedule_date_time_str (month day year hour minute : Nat) : String :=
  sub_hour_zero (sub_day_zero (strftime_schedule_lower month day year hour minute))

/-- Matcher for the template-compression pattern
`data:image/[^;]+;base64,[A-Za-z0-9+/=]{1000,}` (lines 1302 and 1670):
the literal `data:image/`, a non-empty run of characters other than `;`,
the literal `;base64,`, and a maximal run of at least 1000 base64
characters. -/
def isBase64Char (c : Char) : Bool :=
  (('A' ≤ c && c ≤ 'Z') || ('a' ≤ c && c ≤ 'z') || ('0' ≤ c && c ≤ '9') ||
    c = '+' || c = '/' || c = '=')

/-- The placeholder the compression `re.sub` writes in place of each large
embedded image. -/
def placeholderData : String := "data:image/jpeg;base64,PLACEHOLDER_IMAGE_REMOVED"

/-- Consumed-length matcher for the large-base64-image pattern. -/
def base64_image_match (cs : List Char) : Option (List Char × Nat) :=
  if cs.take 11 = "data:image/".data then
    let r1 := cs.drop 11
    let sub := r1.takeWhile (fun c => c != ';')
    if sub.length = 0 then none
    else
      let r2 := r1.drop sub.length
      if r2.take 8 = ";base64,".data then
        let b64 := (r2.drop 8).takeWhile isBase64Char
        if 1000 ≤ b64.length then
          some (placeholderData.data, 11 + sub.length + 8 + b64.length)
        else none
      else none
  else none

/-- Embedding of the compression `re.sub` applied to an oversize HTML
template (lines 1302-1303 and 1670-1671). -/
def replace_large_base64 (html : String) : String :=
  rewriteAll base64_image_match html

/-- Outcome of the oversize-payload policy: either HTML to use, or the
HTTP 413 payload-too-large error response carrying the original and
post-substitution byte sizes. -/
inductive SizeGuardResult where
  | ok (html : String)
  | too_large (originalSize compressedSize : Nat)
deriving DecidableEq

/-- Embedding of the oversize-HTML mitigation applied before returning a
generated template (lines 1293-1318) and before forwarding to Sendy
(lines 1663-1680); the two sites instantiate `ceiling` with `800 * 1024`
and `1024 * 1024` respectively.  If the UTF-8 byte size exceeds the
ceiling, large embedded base64 images are replaced by the placeholder;
if the result still exceeds the ceiling, an HTTP 413 error is returned
instead of any truncated content. -/
def constrain_template_size (html : String) (ceiling : Nat) : SizeGuardResult :=
  let htmlSize := html.utf8ByteSize
  if htmlSize > ceiling then
    let compressed := replace_large_base64 html
    let compressedSize := compressed.utf8ByteSize
    if compressedSize > ceiling then SizeGuardResult.too_large htmlSize compressedSize
    else SizeGuardResult.ok compressed
  else SizeGuardResult.ok html

/-- The content fields `send_to_sendy` reads (lines 350-357); the two
optional fields are read with `.get(..., '')`, so an absent field is the
empty string. -/
structure EmailContent where
  subject_line : String
  hero_title : String
  greeting : String
  main_content : String
  cta_text : String
  cta_url : String
  urgency_text : String
  offer_details : String
deriving DecidableEq

/-- Embedding of the plain-text rendition assembled by `send_to_sendy`
(lines 347-393): fixed lines joined with newlines, the urgency and offer
lines included only when non-empty. -/
def sendy_plain_text (content : EmailContent) : String :=
  String.intercalate "\n"
    (["View online version [weblink]", "",
      "KemisEmail",
      "Home https://start.kemis.net\tServices https://start.kemis.net/services\tStatistics https://start.kemis.net/statistics\tContact https://start.kemis.net/contact",
      "Join Our List https://dzvs3n3sqle.typeform.com/to/JxCYlnLb", "",
      content.hero_title,
      content.greeting, "",
      content.main_content, "",
      content.cta_text]
     ++ (if content.urgency_text ≠ "" then [content.urgency_text] else [])
     ++ (if content.offer_details ≠ "" then [content.offer_details] else [])
     ++ ["",
      content.cta_text,
      "Link: " ++ content.cta_url, "",
      "KemisEmail – Delivering Local Deals and Offers Since 2005", "",
      "2025 © Kemis Group of Companies Inc. All rights reserved.", "",
      "Nassau West, New Providence, The Bahamas", "",
      "Sign Up https://dzvs3n3sqle.typeform.com/to/JxCYlnLb",
      "Privacy Policy #",
      "Terms of Use #",
      "You are receiving this because you signed up for our Deals and Offers list.", "",
      "Click here to unsubscribe if this is no longer of interest."])

/-- The fixed ordered list of candidate Sendy endpoints (lines 330-335). -/
def sendy_endpoints : List String :=
  ["https://kemis.net/sendy/api/campaigns/create.php",
   "https://kemis.net/sendy/api/campaigns/create",
   "https://kemis.net/sendy/api/campaigns.php",
   "https://kemis.net/sendy/api/campaigns"]

/-- The hardcoded default recipient lists substituted when `list_ids` is
falsy (lines 395-397). -/
def default_list_ids : String := "DU0p7BsJdnwE0MXNZusbMQ,fO6BdhtVFBdzyQBMcG6Yiw"

/-- Embedding of `if not list_ids: list_ids = ...` where the Python
argument may be absent (`None`, modelled `none`) or an empty string. -/
def effective_list_ids (list_ids : Option String) : String :=
  match list_ids with
  | none => default_list_ids
  | some s => if s = "" then default_list_ids else s

/-- The campaign payload dictionary built at lines 430-446. -/
structure CampaignData where
  api_key : String
  brand_id : String
  from_name : String
  from_email : String
  reply_to : String
  title : String
  subject : String
  html_text : String
  plain_text : String
  list_ids : String
  send_campaign : String
  schedule_date_time : Option String
deriving DecidableEq

/-- Embedding of the campaign title (lines 338-341): the first 30
characters of the subject followed by the `MM-DD-YYYY` date. -/
def campaign_title (subject dateStr : String) : String :=
  subject.take 30 ++ " - " ++ dateStr

/-- A decomposed local datetime, the result of
`datetime.fromtimestamp(int(scheduled_datetime))`. -/
structure SchedDT where
  month : Nat
  day : Nat
  year : Nat
  hour : Nat
  minute : Nat
deriving DecidableEq

/-- Embedding of the send-flag and schedule-string computation
(lines 399-427).  `none` models the uncaught `ValueError` raised by
`datetime.replace` when rounding past hour 23, which aborts the whole
dispatch into the generic exception handler. -/
def send_flag_and_schedule (send_option : String) (sched : Option SchedDT) :
    Option (String × Option String) :=
  if send_option = "send_now" then some ("1", none)
  else if send_option = "schedule" then
    match sched with
    | some dt =>
      match schedule_round dt.hour dt.minute with
      | some hm =>
        some ("1", some (schedule_date_time_str dt.month dt.day dt.year hm.1 hm.2))
      | none => none
    | none => some ("0", none)
  else some ("0", none)

/-- Outcome of one `requests.post` delivery attempt: an HTTP response with
a status code and body, or a caught `requests.exceptions.RequestException`. -/
inductive AttemptOutcome where
  | status (code : Nat) (body : String)
  | exn
deriving DecidableEq

/-- The HTTP requests `send_to_sendy` can issue, in order: the liveness
GET of the Sendy base URL, the credential-probe POST to subscribers.php,
and the delivery POSTs indexed by (endpoint, config). -/
inductive HttpReq where
  | livenessGet
  | apiKeyTest
  | campaignPost (endpointIdx configIdx : Nat)
deriving DecidableEq

/-- The external world `send_to_sendy` interacts with: the configured API
key, whether the liveness GET raises (with the exception text), and the
outcome of the delivery POST for each (endpoint, config) pair. -/
structure SendyEnv where
  apiKey : String
  livenessExn : Option String
  attempt : Nat → Nat → AttemptOutcome

/-- The result dictionary of `send_to_sendy`: a success with its message
and the response body, or a failure with its error text. -/
inductive SendyResult where
  | ok (message response : String)
  | err (error : String)
deriving DecidableEq

/-- Observable run of `send_to_sendy`: result value, the HTTP requests
issued in order, and the campaign payload posted (when the delivery loop
was reached). -/
structure SendyRun where
  result : SendyResult
  requests : List HttpReq
  payload : Option CampaignData
deriving DecidableEq

/-- The (endpoint, config) pairs in attempt order: for each of the four
endpoints, each of the four request-shape configs (lines 448-470). -/
def attempt_pairs : List (Nat × Nat) :=
  (List.range 4).flatMap (fun i => (List.range 4).map (fun j => (i, j)))

/-- Test whether an attempt outcome is the `response.status_code == 200`
success the loop checks for (line 478). -/
def is200 (o : AttemptOutcome) : Bool :=
  match o with
  | AttemptOutcome.status 200 _ => true
  | _ => false

/-- Embedding of the endpoint × config double loop (lines 464-496): each
attempt is posted in order; a 200 response returns immediately, any other
status (403 included) or a caught request exception continues.  Returns
the attempts issued and, when one succeeded, its (endpoint, config)
indices and response body. -/
def run_attempts (att : Nat → Nat → AttemptOutcome) :
    List (Nat × Nat) → List (Nat × Nat) × Option (Nat × Nat × String)
  | [] => ([], none)
  | p :: rest =>
    match att p.1 p.2 with
    | AttemptOutcome.status code body =>
      if code = 200 then ([p], some (p.1, p.2, body))
      else
        let r := run_attempts att rest
        (p :: r.1, r.2)
    | AttemptOutcome.exn =>
      let r := run_attempts att rest
      (p :: r.1, r.2)

/-- The error string of the exhaustion failure (line 517). -/
def all_failed_error : String :=
  "Sendy API error: All endpoints returned 403 Forbidden. This suggests a server configuration issue. Try the curl command above to test manually."

/-- Embedding of `TemplateGenerator.send_to_sendy` (lines 287-546).
Control flow of the source: an empty API key returns the configuration
error before any request; a liveness-GET exception returns the
not-accessible error; the credential probe is issued and its outcome
ignored; the schedule `ValueError` (hour past 23) falls into the generic
handler; otherwise the campaign payload is built and the double loop runs
to the first 200 response or to exhaustion. -/
def send_to_sendy (env : SendyEnv) (content : EmailContent)
    (html_template : String) (list_ids : Option String) (send_option : String)
    (sched : Option SchedDT) (dateStr : String) : SendyRun :=
  if env.apiKey = "" then
    { result := SendyResult.err "SENDY_API_KEY environment variable is not set",
      requests := [], payload := none }
  else
    match env.livenessExn with
    | some msg =>
      { result := SendyResult.err ("Sendy installation not accessible: " ++ msg),
        requests := [HttpReq.livenessGet], payload := none }
    | none =>
      match send_flag_and_schedule send_option sched with
      | none =>
        { result := SendyResult.err "Error sending to Sendy: hour must be in 0..23",
          requests := [HttpReq.livenessGet, HttpReq.apiKeyTest], payload := none }
      | some fs =>
        let data : CampaignData :=
          { api_key := env.apiKey, brand_id := "1", from_name := "KemisEmail",
            from_email := "offers@kemis.net", reply_to := "offers@kemis.net",
            title := campaign_title content.subject_line dateStr,
            subject := content.subject_line, html_text := html_template,
            plain_text := sendy_plain_text content,
            list_ids := effective_list_ids list_ids,
            send_campaign := fs.1, schedule_date_time := fs.2 }
        let r := run_attempts env.attempt attempt_pairs
        let posts := r.1.map (fun p => HttpReq.campaignPost p.1 p.2)
        match r.2 with
        | some s =>
          { result := SendyResult.ok
              ("Successfully sent to Sendy using " ++ sendy_endpoints.getD s.1 "")
              s.2.2,
            requests := [HttpReq.livenessGet, HttpReq.apiKeyTest] ++ posts,
            payload := some data }
        | none =>
          { result := SendyResult.err all_failed_error,
            requests := [HttpReq.livenessGet, HttpReq.apiKeyTest] ++ posts,
            payload := some data }

/-- A concrete content record for concrete runs of the dispatcher. -/
def sample_content : EmailContent :=
  ⟨"Weekend Special", "SPECIAL OFFER", "Hi there!", "Great deal", "SHOP NOW",
   "https://www.kemis.net", "", ""⟩

/-- A world with no configured API key. -/
def env_no_key : SendyEnv := ⟨"", none, fun _ _ => AttemptOutcome.exn⟩

/-- A world in which every delivery attempt returns HTTP 201 Created. -/
def env_all_201 : SendyEnv :=
  ⟨"key", none, fun _ _ => AttemptOutcome.status 201 "Created"⟩

/-- A world in which the first attempt returns 403, the second raises a
request exception, and the third returns 200. -/
def env_third_ok : SendyEnv :=
  ⟨"key", none, fun i j =>
    if i = 0 && j = 2 then AttemptOutcome.status 200 "Campaign created"
    else if i = 0 && j = 1 then AttemptOutcome.exn
    else AttemptOutcome.status 403 "Forbidden"⟩

/-- An HTML fragment embedding one base64 image data URI of exactly the
1000-character threshold length. -/
def big_html : String :=
  "<img src=\"data:image/png;base64," ++ String.mk (List.replicate 1000 'A') ++ "\">"

/-!  Helper lemmas about the delivery loop. -/

/-- When no attempt returns status 200, the loop runs every attempt and
finds no success. -/
theorem run_attempts_all_fail (att : Nat → Nat → AttemptOutcome) :
    ∀ l : List (Nat × Nat), (∀ p ∈ l, is200 (att p.1 p.2) = false) →
      run_attempts att l = (l, none) := by
  intro l
  induction l with
  | nil => intro _; rfl
  | cons p rest ih =>
    intro hfail
    have hp := hfail p (List.mem_cons_self p rest)
    have hrest := fun q hq => hfail q (List.mem_cons_of_mem p hq)
    cases hatt : att p.1 p.2 with
    | status code body =>
      have hc : code ≠ 200 := by
        intro he
        subst he
        simp [is200, hatt] at hp
      simp [run_attempts, hatt, hc, ih hrest]
    | exn => simp [run_attempts, hatt, ih hrest]

/-- When the attempt at position `k` is the first to return status 200,
the loop stops there with that attempt's body, having issued exactly the
first `k + 1` attempts. -/
theorem run_attempts_first (att : Nat → Nat → AttemptOutcome) :
    ∀ (l : List (Nat × Nat)) (k : Nat) (body : String), k < l.length →
      (∀ p ∈ l.take k, is200 (att p.1 p.2) = false) →
      att (l.getD k (0, 0)).1 (l.getD k (0, 0)).2 = AttemptOutcome.status 200 body →
      run_attempts att l
        = (l.take (k + 1), some ((l.getD k (0, 0)).1, (l.getD k (0, 0)).2, body)) := by
  intro l
  induction l with
  | nil => intro k body hk; simp at hk
  | cons p rest ih =>
    intro k body hk hpre h200
    cases k with
    | zero =>
      simp only [List.getD_cons_zero] at h200
      simp [run_attempts, h200, List.take]
    | succ k2 =>
      have hp : is200 (att p.1 p.2) = false := by
        apply hpre
        simp [List.take]
      have hpre2 : ∀ q ∈ rest.take k2, is200 (att q.1 q.2) = false := by
        intro q hq
        apply hpre
        simp [List.take, hq]
      have h200b : att (rest.getD k2 (0, 0)).1 (rest.getD k2 (0, 0)).2
          = AttemptOutcome.status 200 body := by
        simpa using h200
      have hrec := ih k2 body (by simpa using hk) hpre2 h200b
      cases hatt : att p.1 p.2 with
      | status code body2 =>
        have hc : code ≠ 200 := by
          intro he
          subst he
          simp [is200, hatt] at hp
        simp [run_attempts, hatt, hc, hrec, List.take]
      | exn => simp [run_attempts, hatt, hrec, List.take]

/-- The loop always issues the first attempt. -/
theorem run_attempts_fst_cons (att : Nat → Nat → AttemptOutcome) (p : Nat × Nat)
    (rest : List (Nat × Nat)) :
    ∃ t, (run_attempts att (p :: rest)).1 = p :: t := by
  cases hatt : att p.1 p.2 with
  | status code body =>
    by_cases hc : code = 200
    · exact ⟨[], by simp [run_attempts, hatt, hc]⟩
    · exact ⟨(run_attempts att rest).1, by simp [run_attempts, hatt, hc]⟩
  | exn => exact ⟨(run_attempts att rest).1, by simp [run_attempts, hatt]⟩

/-- The attempt-pair list starts with endpoint 0, config 0. -/
theorem run_attempts_pairs_head (att : Nat → Nat → AttemptOutcome) :
    ∃ t, (run_attempts att attempt_pairs).1 = (0, 0) :: t := by
  have h : attempt_pairs = (0, 0) :: attempt_pairs.tail := by decide
  rw [h]
  exact run_attempts_fst_cons att (0, 0) attempt_pairs.tail

/-!  The claims. -/

/-- Claim C1, counterexample: when the primary model call succeeds and its
body parses as the empty JSON object, `generate_email_content` returns
that empty record unvalidated, so the result is missing every required
field — refuting the claim that the returned record always has every
required field present and populated. -/
theorem c1_counterexample :
    (generate_email_content (GenOutcome.parsed []) GenOutcome.otherFailure "").1 = []
    ∧ requiredFields.all (populatedField
        (generate_email_content (GenOutcome.parsed []) GenOutcome.otherFailure "").1)
      = false := by decide

/-- Claim C1, amended: `generate_email_content` is total (every modelled
outcome of the model calls, for every prompt string including the empty
string, yields a return value), and its result is either the parsed JSON
of a successful model call — returned without field validation — or the
static fallback record, which has every required field present and
populated for every input prompt. -/
theorem c1_generate_total_and_fallback_populated :
    ∀ (primary secondary : GenOutcome) (prompt : String),
      requiredFields.all (populatedField (get_fallback_content prompt)) = true
      ∧ ((generate_email_content primary secondary prompt).1 = get_fallback_content prompt
         ∨ primary = GenOutcome.parsed (generate_email_content primary secondary prompt).1
         ∨ (primary = GenOutcome.apiFailure
            ∧ secondary = GenOutcome.parsed (generate_email_content primary secondary prompt).1)) := by
  intro p s prompt
  constructor
  · rfl
  · cases p with
    | parsed c => exact Or.inr (Or.inl rfl)
    | parseFailure => exact Or.inl rfl
    | rateLimit => exact Or.inl rfl
    | quotaExceeded => exact Or.inl rfl
    | apiFailure =>
      cases s with
      | parsed c => exact Or.inr (Or.inr ⟨rfl, rfl⟩)
      | parseFailure => exact Or.inl rfl
      | rateLimit => exact Or.inl rfl
      | quotaExceeded => exact Or.inl rfl
      | apiFailure => exact Or.inl rfl
      | otherFailure => exact Or.inl rfl
    | otherFailure => exact Or.inl rfl

/-- Claim C2: the size-driven compression cascade of
`download_and_process_image` — initial quality 60 when the original
download exceeds 1 MiB and 70 otherwise, re-encoding at quality 30 and
then 20 whenever the previous encode exceeds 300 KiB, returning `none`
when even the quality-20 encode is over 300 KiB — and consequently every
non-null result is at most 300 KiB. -/
theorem c2_compression_cascade :
    ∀ (originalSize : Nat) (encode : Nat → Nat),
      download_and_process_image 200 originalSize encode =
        (let q0 := if originalSize > 1024 * 1024 then 60 else 70
         if encode q0 ≤ 300 * 1024 then ([q0], some (encode q0))
         else if encode 30 ≤ 300 * 1024 then ([q0, 30], some (encode 30))
         else if encode 20 ≤ 300 * 1024 then ([q0, 30, 20], some (encode 20))
         else ([q0, 30, 20], none))
      ∧ (download_and_process_image 200 originalSize encode).2.getD 0 ≤ 300 * 1024 := by
  intro sz encode
  constructor
  · simp only [download_and_process_image]
    split_ifs <;> first | rfl | omega
  · simp only [download_and_process_image]
    split_ifs <;> simp <;> omega

/-- Claim C3: with an empty API credential, `send_to_sendy` returns the
missing-credential configuration error and issues no HTTP request of any
kind — no liveness probe, no credential probe, no delivery attempt. -/
theorem c3_missing_key_no_requests :
    ∀ (env : SendyEnv) (content : EmailContent) (html : String)
      (list_ids : Option String) (send_option : String) (sched : Option SchedDT)
      (dateStr : String),
      env.apiKey = "" →
      send_to_sendy env content html list_ids send_option sched dateStr =
        { result := SendyResult.err "SENDY_API_KEY environment variable is not set",
          requests := [], payload := none } := by
  intro env c h li so sc ds hk
  simp [send_to_sendy, hk]

/-- Claim C3 witness at a concrete world and inputs. -/
theorem c3_witness :
    send_to_sendy env_no_key sample_content "<p>hi</p>" (some "L1") "draft" none
        "06-15-2021"
      = { result := SendyResult.err "SENDY_API_KEY environment variable is not set",
          requests := [], payload := none } :=
  c3_missing_key_no_requests env_no_key sample_content "<p>hi</p>" (some "L1") "draft"
    none "06-15-2021" rfl

/-- Claim C4, counterexample: in a world where the very first delivery
attempt returns HTTP 201 — a 2xx status — the dispatcher does not return
success with that body as the claim asserts; it treats 201 like any other
non-200 status, exhausts the loop, and fails. -/
theorem c4_counterexample :
    env_all_201.attempt 0 0 = AttemptOutcome.status 201 "Created"
    ∧ (send_to_sendy env_all_201 sample_content "<p>x</p>" (some "L1") "draft" none
        "06-15-2021").result = SendyResult.err all_failed_error := by decide

/-- Claim C4, amended: the first attempt whose response status is exactly
200 short-circuits the endpoint × config double loop and the dispatcher
returns success carrying that response body, even if earlier attempts
returned 403 or other statuses or raised caught network exceptions; any
non-200 response (other 2xx codes included) or caught exception continues
the loop, and only total exhaustion produces the failure result. -/
theorem c4_first_200_short_circuits :
    ∀ (env : SendyEnv) (content : EmailContent) (html : String)
      (list_ids : Option String) (send_option : String) (sched : Option SchedDT)
      (dateStr : String) (fs : String × Option String),
      env.apiKey ≠ "" → env.livenessExn = none →
      send_flag_and_schedule send_option sched = some fs →
      (∀ k body, k < attempt_pairs.length →
        (∀ p ∈ attempt_pairs.take k, is200 (env.attempt p.1 p.2) = false) →
        env.attempt (attempt_pairs.getD k (0, 0)).1 (attempt_pairs.getD k (0, 0)).2
          = AttemptOutcome.status 200 body →
        (send_to_sendy env content html list_ids send_option sched dateStr).result
          = SendyResult.ok
              ("Successfully sent to Sendy using "
                ++ sendy_endpoints.getD (attempt_pairs.getD k (0, 0)).1 "") body
        ∧ (send_to_sendy env content html list_ids send_option sched dateStr).requests
          = [HttpReq.livenessGet, HttpReq.apiKeyTest]
            ++ (attempt_pairs.take (k + 1)).map (fun p => HttpReq.campaignPost p.1 p.2))
      ∧ ((∀ p ∈ attempt_pairs, is200 (env.attempt p.1 p.2) = false) →
        (send_to_sendy env content html list_ids send_option sched dateStr).result
          = SendyResult.err all_failed_error
        ∧ (send_to_sendy env content html list_ids send_option sched dateStr).requests
          = [HttpReq.livenessGet, HttpReq.apiKeyTest]
            ++ attempt_pairs.map (fun p => HttpReq.campaignPost p.1 p.2)) := by
  intro env c h li so sc ds fs hk hl hfs
  constructor
  · intro k body hklen hpre h200
    have hrun := run_attempts_first env.attempt attempt_pairs k body hklen hpre h200
    constructor <;> simp [send_to_sendy, hk, hl, hfs, hrun]
  · intro hfail
    have hrun := run_attempts_all_fail env.attempt attempt_pairs hfail
    constructor <;> simp [send_to_sendy, hk, hl, hfs, hrun]

/-- Claim C4 witness: with the first attempt a 403, the second a network
exception and the third a 200, the dispatcher succeeds with the third
attempt's body after exactly three delivery POSTs. -/
theorem c4_witness :
    (send_to_sendy env_third_ok sample_content "<p>x</p>" (some "L1") "draft" none
        "06-15-2021").result
      = SendyResult.ok
          ("Successfully sent to Sendy using "
            ++ sendy_endpoints.getD (attempt_pairs.getD 2 (0, 0)).1 "")
          "Campaign created"
    ∧ (send_to_sendy env_third_ok sample_content "<p>x</p>" (some "L1") "draft" none
        "06-15-2021").requests
      = [HttpReq.livenessGet, HttpReq.apiKeyTest]
        ++ (attempt_pairs.take 3).map (fun p => HttpReq.campaignPost p.1 p.2) :=
  (c4_first_200_short_circuits env_third_ok sample_content "<p>x</p>" (some "L1")
    "draft" none "06-15-2021" ("0", none) (by decide) rfl rfl).1 2 "Campaign created"
    (by decide) (by decide) (by decide)

/-- Claim C5, counterexample: on a primary-model rate-limit error the code
returns the fallback immediately — the secondary model is not consulted
(the invoked-flag is `false`) even in a world where the gpt-3.5-turbo
retry would have succeeded — refuting the claim that a rate-limit failure
triggers exactly one secondary retry. -/
theorem c5_counterexample :
    generate_email_content GenOutcome.rateLimit
        (GenOutcome.parsed [("subject_line", JVal.s "ok")]) "p"
      = (get_fallback_content "p", false) := by decide

/-- Claim C5, amended: the gpt-3.5-turbo retry with the identical prompt
is made exactly when the primary call fails with a generic API error;
rate-limit, quota, parse and other failures return the static fallback
with no secondary attempt; and after an API error the fallback is
returned precisely when the secondary attempt also fails. -/
theorem c5_secondary_only_on_api_error :
    ∀ (primary secondary : GenOutcome) (prompt : String),
      ((generate_email_content primary secondary prompt).2 = true
        ↔ primary = GenOutcome.apiFailure)
      ∧ (primary = GenOutcome.rateLimit ∨ primary = GenOutcome.quotaExceeded
          ∨ primary = GenOutcome.parseFailure ∨ primary = GenOutcome.otherFailure →
        generate_email_content primary secondary prompt
          = (get_fallback_content prompt, false))
      ∧ (∀ c, generate_email_content GenOutcome.apiFailure (GenOutcome.parsed c) prompt
          = (c, true))
      ∧ ((∀ c, secondary ≠ GenOutcome.parsed c) →
        generate_email_content GenOutcome.apiFailure secondary prompt
          = (get_fallback_content prompt, true)) := by
  intro p s prompt
  refine ⟨?_, ?_, ?_, ?_⟩
  · cases p <;> cases s <;> simp [generate_email_content]
  · intro hp
    rcases hp with h | h | h | h <;> subst h <;> rfl
  · intro c
    rfl
  · intro hns
    cases s with
    | parsed c => exact absurd rfl (hns c)
    | parseFailure => rfl
    | rateLimit => rfl
    | quotaExceeded => rfl
    | apiFailure => rfl
    | otherFailure => rfl

/-- Claim C5 witness: a quota error returns the fallback without invoking
the secondary model, and an API error invokes it (here it fails too, so
the fallback is returned with the invoked-flag set). -/
theorem c5_witness :
    generate_email_content GenOutcome.quotaExceeded GenOutcome.otherFailure "q"
      = (get_fallback_content "q", false)
    ∧ generate_email_content GenOutcome.apiFailure GenOutcome.otherFailure "q"
      = (get_fallback_content "q", true) :=
  ⟨(c5_secondary_only_on_api_error GenOutcome.quotaExceeded GenOutcome.otherFailure
      "q").2.1 (Or.inr (Or.inl rfl)),
   (c5_secondary_only_on_api_error GenOutcome.apiFailure GenOutcome.otherFailure
      "q").2.2.2 (fun _ h => GenOutcome.noConfusion h)⟩

/-- Claim C6, counterexample: for a decoded 1080 × 1000 image the code
computes height `int(1000 * (560 / 1080)) = 518` (binary-float
truncation), while the claimed round-to-nearest gives 519 — refuting the
claim that the height is rounded to nearest. -/
theorem c6_counterexample :
    resize_dims 1080 1000 = (560, 518)
    ∧ round_nearest (1000 * 560) 1080 = 519
    ∧ (resize_dims 1080 1000).2 ≠ round_nearest (1000 * 560) 1080 := by decide

set_option maxRecDepth 1000000 in
set_option maxHeartbeats 1000000 in
/-- Claim C6, amended: for width W ≠ 560 the processed image has width
exactly 560 and height equal to the truncation toward zero (Python
`int`) of H × (560 / W) evaluated in binary floating point — not the
round-to-nearest of the claim; for W = 560 no resize occurs and the
dimensions are unchanged.  The float truncation agrees with the exact
floor ⌊H·560/W⌋ across realistic slices (every width 1–128 at height
1024, every height 0–128 at width 1024), but lands one below it at
inputs where the exact ratio is an integer and the float product falls
just under it — exhaustively listed for dimensions up to 128, e.g.
17 × 51 yields 1679 where the exact value is 1680. -/
theorem c6_resize_float_trunc :
    (∀ (width height : Nat), width ≠ 560 →
      resize_dims width height = (560, floatTruncHeight width height))
    ∧ (∀ height, resize_dims 560 height = (560, height))
    ∧ resize_dims 17 51 = (560, 1679)
    ∧ 51 * 560 / 17 = 1680
    ∧ resize_dims 1080 1000 = (560, 518)
    ∧ 1000 * 560 / 1080 = 518
    ∧ (divergence_cases.all (fun c =>
        floatTruncHeight c.1 c.2 + 1 == c.2 * 560 / c.1)) = true
    ∧ ((List.range 128).all (fun w =>
        floatTruncHeight (w + 1) 1024 == 1024 * 560 / (w + 1))) = true
    ∧ ((List.range 129).all (fun h =>
        floatTruncHeight 1024 h == h * 560 / 1024)) = true := by
  refine ⟨?_, ?_, by decide, by decide, by decide, by decide, by decide, by decide,
    by decide⟩
  · intro w h hw
    simp [resize_dims, hw]
  · intro h
    simp [resize_dims]

/-- Claim C6 witness at the concrete 1080 × 1000 input. -/
theorem c6_witness :
    resize_dims 1080 1000 = (560, floatTruncHeight 1080 1000) :=
  c6_resize_float_trunc.1 1080 1000 (by decide)

/-- Claim C7: the schedule minute is rounded to the nearest 5-minute
boundary (always a multiple of 5, never further than 2 minutes away), with
47 → 45, 48 → 50, and 58 → 60 carrying into the next hour at minute 0 —
but the carry is broken at hour 23: `replace(hour=24)` raises
`ValueError`, modelled as `none`, so the claimed behavior fails there
while holding for every hour below 23. -/
theorem c7_schedule_round_overflow :
    schedule_round 23 58 = none
    ∧ schedule_round 9 47 = some (9, 45)
    ∧ schedule_round 9 48 = some (9, 50)
    ∧ schedule_round 9 58 = some (10, 0)
    ∧ ((List.range 60).all (fun m =>
        decide (round5 m % 5 = 0 ∧ round5 m ≤ m + 2 ∧ m ≤ round5 m + 2))) = true
    ∧ ((List.range 23).all (fun h =>
        (List.range 60).all (fun m => (schedule_round h m).isSome))) = true := by
  decide

/-- Claim C8: the formatted schedule string has no leading zero on the
day-of-month or on the hour and a lower-case meridiem: hour 18, minute 5
renders as `6:05pm` and day 5 renders as `5,` — checked exactly at the
claim's probe and across every day of the month, every hour of the day,
and every minute. -/
theorem c8_schedule_format_no_leading_zeros :
    schedule_date_time_str 6 5 2021 18 5 = "june 5, 2021 6:05pm"
    ∧ ((List.range 31).all (fun i =>
        schedule_date_time_str 6 (i + 1) 2021 18 5
          == "june " ++ Nat.repr (i + 1) ++ ", 2021 6:05pm")) = true
    ∧ ((List.range 24).all (fun h =>
        schedule_date_time_str 6 5 2021 h 5
          == "june 5, 2021 " ++ Nat.repr (hour12 h) ++ ":05" ++ meridiem_lower h)) = true
    ∧ ((List.range 60).all (fun mi =>
        schedule_date_time_str 6 5 2021 18 mi
          == "june 5, 2021 6:" ++ pad2 mi ++ "pm")) = true := by
  decide

/-- Claim C9: the oversize-HTML policy returns the HTML unchanged when its
UTF-8 byte length is at or under the ceiling; when over, it substitutes
the placeholder for large embedded base64 images and returns the
substituted HTML when that is at or under the ceiling; when even the
substituted HTML is over the ceiling it returns the distinct
payload-too-large outcome; and any returned HTML is either the original
or the substituted one — never a truncation. -/
theorem c9_constrain_policy :
    ∀ (html : String) (ceiling : Nat),
      (html.utf8ByteSize ≤ ceiling →
        constrain_template_size html ceiling = SizeGuardResult.ok html)
      ∧ (ceiling < html.utf8ByteSize →
        ((replace_large_base64 html).utf8ByteSize ≤ ceiling →
          constrain_template_size html ceiling
            = SizeGuardResult.ok (replace_large_base64 html))
        ∧ (ceiling < (replace_large_base64 html).utf8ByteSize →
          constrain_template_size html ceiling
            = SizeGuardResult.too_large html.utf8ByteSize
                (replace_large_base64 html).utf8ByteSize))
      ∧ (∀ s, constrain_template_size html ceiling = SizeGuardResult.ok s →
        s = html ∨ s = replace_large_base64 html) := by
  intro html ceiling
  refine ⟨?_, fun hgt => ⟨?_, ?_⟩, ?_⟩
  · intro hle
    have h1 : ¬ (html.utf8ByteSize > ceiling) := by omega
    simp [constrain_template_size, h1]
  · intro hle
    have h2 : ¬ ((replace_large_base64 html).utf8ByteSize > ceiling) := by omega
    simp [constrain_template_size, hgt, h2]
  · intro hgt2
    simp [constrain_template_size, hgt, hgt2]
  · intro s hs
    by_cases h1 : html.utf8ByteSize > ceiling
    · by_cases h2 : (replace_large_base64 html).utf8ByteSize > ceiling
      · simp [constrain_template_size, h1, h2] at hs
      · simp [constrain_template_size, h1, h2] at hs
        exact Or.inr hs.symm
    · simp [constrain_template_size, h1] at hs
      exact Or.inl hs.symm

set_option maxRecDepth 200000 in
/-- Claim C9 witness: a small page passes through unchanged; a page whose
only weight is one threshold-length base64 image is returned with the
image replaced by the placeholder and lands under the ceiling; a page
over the ceiling with nothing to substitute yields the too-large outcome. -/
theorem c9_witness :
    constrain_template_size "abc" 10 = SizeGuardResult.ok "abc"
    ∧ constrain_template_size big_html 200
      = SizeGuardResult.ok (replace_large_base64 big_html)
    ∧ replace_large_base64 big_html
      = "<img src=\"data:image/jpeg;base64,PLACEHOLDER_IMAGE_REMOVED\">"
    ∧ constrain_template_size "0123456789ab" 5
      = SizeGuardResult.too_large ("0123456789ab".utf8ByteSize)
          ((replace_large_base64 "0123456789ab").utf8ByteSize) :=
  ⟨(c9_constrain_policy "abc" 10).1 (by decide),
   ((c9_constrain_policy big_html 200).2.1 (by decide)).1 (by decide),
   by decide,
   ((c9_constrain_policy "0123456789ab" 5).2.1 (by decide)).2 (by decide)⟩

/-- Claim C10: when the target-list argument is absent (`None`) or the
empty string, `send_to_sendy` silently substitutes the two hardcoded
default list identifiers into the campaign payload and proceeds with
delivery — the first delivery POST is issued — rather than returning an
error. -/
theorem c10_default_lists :
    ∀ (env : SendyEnv) (content : EmailContent) (html : String)
      (list_ids : Option String) (send_option : String) (sched : Option SchedDT)
      (dateStr : String) (fs : String × Option String),
      env.apiKey ≠ "" → env.livenessExn = none →
      send_flag_and_schedule send_option sched = some fs →
      (list_ids = none ∨ list_ids = some "") →
      ((send_to_sendy env content html list_ids send_option sched dateStr).payload.map
          (fun d => d.list_ids)) = some default_list_ids
      ∧ HttpReq.campaignPost 0 0
          ∈ (send_to_sendy env content html list_ids send_option sched dateStr).requests := by
  intro env c h li so sc ds fs hk hl hfs hli
  have hli2 : effective_list_ids li = default_list_ids := by
    rcases hli with h1 | h1 <;> subst h1 <;> rfl
  obtain ⟨t, ht⟩ := run_attempts_pairs_head env.attempt
  rcases hr : run_attempts env.attempt attempt_pairs with ⟨tr, o⟩
  rw [hr] at ht
  simp only at ht
  subst ht
  cases o with
  | none => constructor <;> simp [send_to_sendy, hk, hl, hfs, hr, hli2]
  | some s => constructor <;> simp [send_to_sendy, hk, hl, hfs, hr, hli2]

/-- Claim C10 witness: with the list argument absent, the posted payload
carries the two hardcoded default list identifiers and delivery proceeds. -/
theorem c10_witness :
    ((send_to_sendy env_all_201 sample_content "<p>x</p>" none "draft" none
        "06-15-2021").payload.map (fun d => d.list_ids)) = some default_list_ids
    ∧ HttpReq.campaignPost 0 0
        ∈ (send_to_sendy env_all_201 sample_content "<p>x</p>" none "draft" none
            "06-15-2021").requests :=
  c10_default_lists env_all_201 sample_content "<p>x</p>" none "draft" none
    "06-15-2021" ("0", none) (by decide) rfl rfl (Or.inl rfl)
